import Mathlib

/-!
Shallow embedding of the account views of `weblate/accounts/views.py`
(profile update, password change, contact and hosting mail relays, API key
reset).  Each Django view becomes a pure Lean function from an explicit
request value (method, settings flags, session contents, form-validation
oracles) to a result record carrying the ordered list of observable side
effects (ORM saves, outgoing mail, session mutations, message-framework
calls) together with the HTTP response and the session left behind.

Form classes (`ProfileForm`, `PasswordChangeForm`, `SetPasswordForm`,
`ContactForm`, `HostingForm`, ...) live outside this excerpt, so their
validation verdicts and cleaned data enter the model as oracle fields of
the request; calls into external collaborators (mail backend, token store,
rate limiter, session auth-hash update) are recorded as effects.
-/

/-- Observable side effects of a request, in program order. -/
inductive Effect where
  /-- `profile.save()` issued by the language-defaulting block of `user_profile`. -/
  | saveDefaultLanguage : Effect
  /-- `forms[idx].save()` for one of the six profile sub-forms. -/
  | saveForm (idx : Nat) : Effect
  /-- `set_lang(request, profile)` call. -/
  | setLangCall : Effect
  /-- `LOGGER.info` in `mail_admins_contact`. -/
  | logInfo : Effect
  /-- `LOGGER.error` in `mail_admins_contact` when ADMINS is empty. -/
  | logError : Effect
  /-- `mail.send()` of an admin mail: subject, body, Reply-To header. -/
  | sendMail (subject body replyTo : String) : Effect
  /-- `messages.error` call. -/
  | errorMsg (text : String) : Effect
  /-- `messages.success` call. -/
  | successMsg (text : String) : Effect
  /-- `messages.warning` call. -/
  | warningMsg (text : String) : Effect
  /-- `check_rate_limit(request)` consultation of the rate limiter. -/
  | checkRate : Effect
  /-- `logout(request)` flushing the session. -/
  | logoutCall : Effect
  /-- `rotate_token(request)` rotating the CSRF token. -/
  | rotateTokenCall : Effect
  /-- `form.save()` committing the new password in the `password` view. -/
  | savePasswordCall : Effect
  /-- `update_session_auth_hash(request, user)`: invalidates every other
  session of the user while keeping the current one authenticated. -/
  | updateSessionAuthHashCall : Effect
  /-- `request.session.cycle_key()`. -/
  | cycleKeyCall : Effect
  /-- `notify_account_activity(user, request, event)`. -/
  | notifyActivity (event : String) : Effect
  /-- `request.user.auth_token.delete()`. -/
  | deleteTokenCall : Effect
  /-- `Token.objects.create(user=..., key=get_random_string(len))`. -/
  | createTokenCall (len : Nat) : Effect
deriving DecidableEq, Repr

/-- HTTP response of a view, abstracted to what the claims inspect. -/
inductive Response where
  /-- Redirect to a URL (named routes are kept as their route names). -/
  | redirect (url : String) : Response
  /-- Render a template (bound form errors are tracked in the result records). -/
  | render (template : String) : Response
  /-- `HttpResponseNotAllowed` produced by the `require_POST` decorator. -/
  | methodNotAllowed : Response
deriving DecidableEq, Repr

/-- `reverse(name)` of Django URL routing: the routing table is outside this
excerpt, so a route resolves to its own name. -/
def reverse (name : String) : String := name

/-- `redirect_profile(page)` from views.py: redirect to the profile route,
appending `page` when it is an anchor starting with `#`. -/
def redirect_profile (page : String) : Response :=
  Response.redirect
    (if page.startsWith "#" then reverse "profile" ++ page else reverse "profile")

/-- `mail_admins_contact(request, subject, message, context, sender)` with the
%-substitution already applied by the caller: logs, then either reports a
configuration error (no ADMINS configured, nothing sent) or sends one mail
with the subject-prefix tag prepended and reports success. -/
def mail_admins_contact (adminsConfigured : Bool) (subjectTag : String)
    (subject body sender : String) : List Effect :=
  Effect.logInfo ::
    (if adminsConfigured then
      [Effect.sendMail (subjectTag ++ subject) body sender,
       Effect.successMsg "Message has been sent to administrator."]
    else
      [Effect.errorMsg "Message could not be sent to administrator!",
       Effect.logError])

/-- CONTACT_TEMPLATE with its %(name)s, %(email)s, %(message)s fields filled. -/
def contactBody (name email message : String) : String :=
  "\nMessage from " ++ name ++ " <" ++ email ++ ">:\n\n" ++ message ++ "\n"

/-- HOSTING_TEMPLATE with all of its fields filled. -/
def hostingBody (name email project url repo mask username message : String) :
    String :=
  "\n" ++ name ++ " <" ++ email ++ "> wants to host " ++ project ++
  "\n\nProject:    " ++ project ++
  "\nWebsite:    " ++ url ++
  "\nRepository: " ++ repo ++
  "\nFilemask:   " ++ mask ++
  "\nUsername:   " ++ username ++
  "\n\nAdditional message:\n\n" ++ message ++ "\n"

/-- Request reaching the `contact` view.  `formValid` and the cleaned fields
are the oracle for `ContactForm`, which is outside this excerpt;
`rateLimitAllowed` is the verdict `check_rate_limit(request)` returns. -/
structure ContactRequest where
  isPost : Bool
  rateLimitAllowed : Bool
  formValid : Bool
  name : String
  email : String
  subject : String
  message : String
  adminsConfigured : Bool
  subjectTag : String
deriving DecidableEq, Repr

/-- Result of the mail-relay and API-key views. -/
structure HandlerResult where
  effects : List Effect
  response : Response
deriving DecidableEq, Repr

/-- The `contact` view: on POST first consult the rate limiter; when denied,
emit a user-visible error and fall through to the render; when allowed and
the form is valid, relay the message to the admins and redirect home. -/
def contact (req : ContactRequest) : HandlerResult :=
  if req.isPost then
    if !req.rateLimitAllowed then
      { effects := [Effect.checkRate,
                    Effect.errorMsg "Too many messages sent, please try again later!"],
        response := Response.render "accounts/contact.html" }
    else if req.formValid then
      { effects := Effect.checkRate ::
          mail_admins_contact req.adminsConfigured req.subjectTag req.subject
            (contactBody req.name req.email req.message) req.email,
        response := Response.redirect (reverse "home") }
    else
      { effects := [Effect.checkRate],
        response := Response.render "accounts/contact.html" }
  else
    { effects := [], response := Response.render "accounts/contact.html" }

/-- Request reaching the `hosting` view.  `rateLimitAllowed` models the
verdict the external rate limiter would give for this client; the view's
code never consults it. -/
structure HostingRequest where
  isAuthenticated : Bool
  offerHosting : Bool
  isPost : Bool
  rateLimitAllowed : Bool
  formValid : Bool
  name : String
  email : String
  project : String
  url : String
  repo : String
  mask : String
  message : String
  username : String
  adminsConfigured : Bool
  subjectTag : String
deriving DecidableEq, Repr

/-- The `hosting` view: requires login (`login_required`) and the
OFFER_HOSTING setting; on a valid POST it enriches the cleaned data with
the requester's username and relays the message to the admins. -/
def hosting (req : HostingRequest) : HandlerResult :=
  if !req.isAuthenticated then
    { effects := [], response := Response.redirect (reverse "login") }
  else if !req.offerHosting then
    { effects := [], response := Response.redirect (reverse "home") }
  else if req.isPost then
    if req.formValid then
      { effects := mail_admins_contact req.adminsConfigured req.subjectTag
          ("Hosting request for " ++ req.project)
          (hostingBody req.name req.email req.project req.url req.repo req.mask
            req.username req.message)
          req.email,
        response := Response.redirect (reverse "home") }
    else
      { effects := [], response := Response.render "accounts/hosting.html" }
  else
    { effects := [], response := Response.render "accounts/hosting.html" }

/-- Request reaching the `reset_api_key` view. -/
structure ApiKeyRequest where
  isPost : Bool
  isAuthenticated : Bool
  hasAuthToken : Bool
deriving DecidableEq, Repr

/-- The `reset_api_key` view: `require_POST` rejects non-POST methods before
anything runs; `login_required` redirects anonymous users; otherwise any
existing token is deleted and a fresh random token of length 40 created. -/
def reset_api_key (req : ApiKeyRequest) : HandlerResult :=
  if !req.isPost then
    { effects := [], response := Response.methodNotAllowed }
  else if !req.isAuthenticated then
    { effects := [], response := Response.redirect (reverse "login") }
  else
    { effects := (if req.hasAuthToken then [Effect.deleteTokenCall] else []) ++
        [Effect.createTokenCall 40],
      response := redirect_profile "#api" }

/-- Request reaching the `user_profile` view.  The six `...FormValid` fields
are the oracle verdicts of the six sub-forms parsed from `request.POST`
(`ProfileForm`, `SubscriptionForm`, `SubscriptionSettingsForm`,
`UserSettingsForm`, `DashboardSettingsForm`, `UserForm`);
`submittedLanguage` is the language the validated `ProfileForm` writes into
the profile on save; `requestLocale` is `get_language()`. -/
structure ProfileRequest where
  isAuthenticated : Bool
  isPost : Bool
  demoServer : Bool
  username : String
  profileLanguage : String
  requestLocale : String
  profileFormValid : Bool
  subscriptionFormValid : Bool
  subscriptionSettingsFormValid : Bool
  userSettingsFormValid : Bool
  dashboardSettingsFormValid : Bool
  userFormValid : Bool
  submittedLanguage : String
  activetab : String
  languageCookieName : String
deriving DecidableEq, Repr

/-- Conjunction `all(form.is_valid() for form in forms)` over the six
sub-forms of `user_profile`. -/
def allFormsValid (req : ProfileRequest) : Bool :=
  req.profileFormValid && req.subscriptionFormValid &&
  req.subscriptionSettingsFormValid && req.userSettingsFormValid &&
  req.dashboardSettingsFormValid && req.userFormValid

/-- Result of the `user_profile` view. -/
structure ProfileResult where
  effects : List Effect
  response : Response
  /-- `profile.language` once the request has finished. -/
  language : String
  /-- Language cookie set on the response: name and value, when set. -/
  cookie : Option (String × String)
  /-- Locale passed to `translation.activate`, when any. -/
  activatedLocale : Option String
  /-- True when the page is re-rendered with the bound (error-carrying)
  POST forms. -/
  boundFormsRendered : Bool
deriving DecidableEq, Repr

/-- The `user_profile` view.  An unset profile language is first defaulted
from the request locale and saved.  On POST: the demo account on a demo
server is hard-blocked; otherwise, when every sub-form is valid each form
is saved, `set_lang` applied and a redirect returned carrying the language
cookie and activating the new locale; when any sub-form is invalid the page
falls through to the render with the bound forms.  Every render also sets
the language cookie from the profile. -/
def user_profile (req : ProfileRequest) : ProfileResult :=
  if !req.isAuthenticated then
    { effects := [], response := Response.redirect (reverse "login"),
      language := req.profileLanguage, cookie := none,
      activatedLocale := none, boundFormsRendered := false }
  else
    let lang := if req.profileLanguage = "" then req.requestLocale
                else req.profileLanguage
    let defaultSave := if req.profileLanguage = ""
                       then [Effect.saveDefaultLanguage] else []
    if req.isPost then
      if req.demoServer && req.username == "demo" then
        { effects := defaultSave ++
            [Effect.warningMsg "You cannot change demo account on the demo server."],
          response := redirect_profile req.activetab,
          language := lang, cookie := none,
          activatedLocale := none, boundFormsRendered := false }
      else if allFormsValid req then
        { effects := defaultSave ++
            [Effect.saveForm 0, Effect.saveForm 1, Effect.saveForm 2,
             Effect.saveForm 3, Effect.saveForm 4, Effect.saveForm 5,
             Effect.setLangCall,
             Effect.successMsg "Your profile has been updated."],
          response := redirect_profile req.activetab,
          language := req.submittedLanguage,
          cookie := some (req.languageCookieName, req.submittedLanguage),
          activatedLocale := some req.submittedLanguage,
          boundFormsRendered := false }
      else
        { effects := defaultSave,
          response := Response.render "accounts/profile.html",
          language := lang,
          cookie := some (req.languageCookieName, lang),
          activatedLocale := none, boundFormsRendered := true }
    else
      { effects := defaultSave,
        response := Response.render "accounts/profile.html",
        language := lang,
        cookie := some (req.languageCookieName, lang),
        activatedLocale := none, boundFormsRendered := false }

/-- Django session as the `password` view sees it: the `auth_attempts` key
(absent on a fresh session, read with default 0) and presence of the
`show_set_password` flag. -/
structure Session where
  authAttempts : Option Nat
  showSetPassword : Bool
deriving DecidableEq, Repr

/-- `logout(request)` flushes the session: a fresh, empty one remains. -/
def flushedSession : Session :=
  { authAttempts := none, showSetPassword := false }

/-- Request reaching the `password` view.  `changeFormValid` is the oracle
for `PasswordChangeForm(request.POST)`, `currentPasswordCorrect` the result
of `request.user.check_password` on its cleaned `password` field, and
`setFormValid` the oracle for `SetPasswordForm(request.user, request.POST)`. -/
structure PasswordRequest where
  isAuthenticated : Bool
  isPost : Bool
  demoServer : Bool
  username : String
  hasUsablePassword : Bool
  session : Session
  authMaxAttempts : Nat
  changeFormValid : Bool
  currentPasswordCorrect : Bool
  setFormValid : Bool
  activetab : String
deriving DecidableEq, Repr

/-- Result of the `password` view. -/
structure PasswordResult where
  effects : List Effect
  response : Response
  /-- Session contents after the request. -/
  session : Session
  /-- True when `logout(request)` terminated the session. -/
  loggedOut : Bool
  /-- True when a change form (current-password form) is handed to the
  render context, i.e. `change_form` is not None. -/
  changeFormPresent : Bool
deriving DecidableEq, Repr

/-- Shared tail of the `password` view: on POST, when the new-password form
is valid and `do_change` was established, commit the password, invalidate
the other sessions, cycle the session key and notify; otherwise render the
page.  `preEffects` are the effects of the verification phase and `sess`
the session it left behind. -/
def passwordFinish (req : PasswordRequest) (doChange : Bool)
    (changeFormPresent : Bool) (sess : Session) (preEffects : List Effect) :
    PasswordResult :=
  if req.isPost && req.setFormValid && doChange then
    { effects := preEffects ++
        [Effect.savePasswordCall, Effect.updateSessionAuthHashCall,
         Effect.cycleKeyCall,
         Effect.successMsg "Your password has been changed.",
         Effect.notifyActivity "password"],
      response := redirect_profile (if sess.showSetPassword then "" else "#auth"),
      session := { sess with showSetPassword := false },
      loggedOut := false, changeFormPresent := changeFormPresent }
  else
    { effects := preEffects,
      response := Response.render "accounts/password.html",
      session := sess, loggedOut := false,
      changeFormPresent := changeFormPresent }

/-- The `password` view.  The demo account on a demo server is hard-blocked.
A user without a usable password skips current-password verification
(`do_change` is True and no change form exists).  Otherwise, a POST with the
per-session attempt counter at or above AUTH_MAX_ATTEMPTS is answered by a
forced logout and an error redirect to login; below the ceiling, a valid
change form has its password compared: a mismatch increments the counter,
surfaces an error and rotates the CSRF token, while a match resets the
counter to zero.  The tail then processes the new-password form. -/
def password (req : PasswordRequest) : PasswordResult :=
  if !req.isAuthenticated then
    { effects := [], response := Response.redirect (reverse "login"),
      session := req.session, loggedOut := false, changeFormPresent := false }
  else if req.demoServer && req.username == "demo" then
    { effects :=
        [Effect.warningMsg "You cannot change demo account on the demo server."],
      response := redirect_profile req.activetab,
      session := req.session, loggedOut := false, changeFormPresent := false }
  else if !req.hasUsablePassword then
    passwordFinish req true false req.session []
  else if req.isPost then
    if req.session.authAttempts.getD 0 ≥ req.authMaxAttempts then
      { effects := [Effect.logoutCall,
                    Effect.errorMsg "Too many authentication attempts!"],
        response := Response.redirect (reverse "login"),
        session := flushedSession, loggedOut := true,
        changeFormPresent := false }
    else if req.changeFormValid then
      if req.currentPasswordCorrect then
        passwordFinish req true true
          { req.session with authAttempts := some 0 } []
      else
        passwordFinish req false true
          { req.session with
              authAttempts := some (req.session.authAttempts.getD 0 + 1) }
          [Effect.errorMsg "You have entered an invalid password.",
           Effect.rotateTokenCall]
    else
      passwordFinish req false true req.session []
  else
    passwordFinish req false true req.session []

/-- Sample profile POST with every sub-form valid. -/
def profileReqAllValid : ProfileRequest :=
  { isAuthenticated := true, isPost := true, demoServer := false,
    username := "testuser", profileLanguage := "en", requestLocale := "en",
    profileFormValid := true, subscriptionFormValid := true,
    subscriptionSettingsFormValid := true, userSettingsFormValid := true,
    dashboardSettingsFormValid := true, userFormValid := true,
    submittedLanguage := "cs", activetab := "",
    languageCookieName := "django_language" }

/-- Sample profile GET whose profile has no language set yet. -/
def profileReqFresh : ProfileRequest :=
  { isAuthenticated := true, isPost := false, demoServer := false,
    username := "testuser", profileLanguage := "", requestLocale := "en",
    profileFormValid := false, subscriptionFormValid := false,
    subscriptionSettingsFormValid := false, userSettingsFormValid := false,
    dashboardSettingsFormValid := false, userFormValid := false,
    submittedLanguage := "", activetab := "",
    languageCookieName := "django_language" }

/-- Sample password POST arriving with the attempt counter at the ceiling. -/
def passwordReqLocked : PasswordRequest :=
  { isAuthenticated := true, isPost := true, demoServer := false,
    username := "testuser", hasUsablePassword := true,
    session := { authAttempts := some 5, showSetPassword := false },
    authMaxAttempts := 5, changeFormValid := true,
    currentPasswordCorrect := true, setFormValid := true, activetab := "" }

/-- Sample accepted password change (current password verified, both forms
valid, counter below the ceiling). -/
def passwordReqAccepted : PasswordRequest :=
  { isAuthenticated := true, isPost := true, demoServer := false,
    username := "testuser", hasUsablePassword := true,
    session := { authAttempts := some 2, showSetPassword := false },
    authMaxAttempts := 5, changeFormValid := true,
    currentPasswordCorrect := true, setFormValid := true, activetab := "" }

/-- Sample password POST by an account without a usable password. -/
def passwordReqNoUsable : PasswordRequest :=
  { isAuthenticated := true, isPost := true, demoServer := false,
    username := "testuser", hasUsablePassword := false,
    session := { authAttempts := some 7, showSetPassword := true },
    authMaxAttempts := 5, changeFormValid := false,
    currentPasswordCorrect := false, setFormValid := true, activetab := "" }

/-- Sample password POST with a valid change form but a wrong current
password. -/
def passwordReqWrong : PasswordRequest :=
  { isAuthenticated := true, isPost := true, demoServer := false,
    username := "testuser", hasUsablePassword := true,
    session := { authAttempts := some 1, showSetPassword := false },
    authMaxAttempts := 5, changeFormValid := true,
    currentPasswordCorrect := false, setFormValid := true, activetab := "" }

/-- Sample password POST with the current password verified but an invalid
new-password form. -/
def passwordReqVerifiedOnly : PasswordRequest :=
  { isAuthenticated := true, isPost := true, demoServer := false,
    username := "testuser", hasUsablePassword := true,
    session := { authAttempts := some 3, showSetPassword := false },
    authMaxAttempts := 5, changeFormValid := true,
    currentPasswordCorrect := true, setFormValid := false, activetab := "" }

/-- Sample contact POST denied by the rate limiter. -/
def contactReqThrottled : ContactRequest :=
  { isPost := true, rateLimitAllowed := false, formValid := true,
    name := "Test", email := "noreply@weblate.org",
    subject := "Message from dark side",
    message := "Hi", adminsConfigured := true, subjectTag := "[Weblate] " }

/-- Sample valid hosting POST arriving while the rate limiter would deny the
client. -/
def hostingReqThrottled : HostingRequest :=
  { isAuthenticated := true, offerHosting := true, isPost := true,
    rateLimitAllowed := false, formValid := true,
    name := "Test", email := "noreply@weblate.org", project := "HOST",
    url := "http://example.net",
    repo := "https://github.com/WeblateOrg/weblate.git", mask := "po/*.po",
    message := "Hi", username := "testuser",
    adminsConfigured := true, subjectTag := "[Weblate] " }

/-- C5: a contact POST denied by the rate limiter never reaches
`mail_admins_contact`: the only effects are the limiter consultation and a
user-visible rate-limit error, no admin mail is composed or sent, and the
outcome is independent of the validity of the submitted form. -/
theorem contact_throttled_no_mail (req : ContactRequest)
    (hpost : req.isPost = true) (hdeny : req.rateLimitAllowed = false) :
    (contact req).effects =
      [Effect.checkRate,
       Effect.errorMsg "Too many messages sent, please try again later!"]
  ∧ (∀ s b r, Effect.sendMail s b r ∉ (contact req).effects)
  ∧ (∀ v, contact { req with formValid := v } = contact req) := by
  refine ⟨?_, ?_, ?_⟩ <;> simp [contact, hpost, hdeny]

/-- Witness for `contact_throttled_no_mail` at a concrete throttled POST. -/
theorem contact_throttled_no_mail_witness :
    contactReqThrottled.isPost = true
  ∧ contactReqThrottled.rateLimitAllowed = false
  ∧ (contact contactReqThrottled).effects =
      [Effect.checkRate,
       Effect.errorMsg "Too many messages sent, please try again later!"] :=
  ⟨rfl, rfl, (contact_throttled_no_mail contactReqThrottled rfl rfl).1⟩

set_option maxRecDepth 8192 in
/-- C4 as stated is false on the code: for a valid hosting POST arriving
while the rate limiter would deny the client, the hosting view still sends
the admin mail, and it never consults the rate limiter at all. -/
theorem hosting_rate_limit_claim_cex :
    hostingReqThrottled.rateLimitAllowed = false
  ∧ Effect.sendMail ("[Weblate] " ++ "Hosting request for HOST")
      (hostingBody "Test" "noreply@weblate.org" "HOST" "http://example.net"
        "https://github.com/WeblateOrg/weblate.git" "po/*.po" "testuser" "Hi")
      "noreply@weblate.org" ∈ (hosting hostingReqThrottled).effects
  ∧ Effect.checkRate ∉ (hosting hostingReqThrottled).effects := by
  refine ⟨rfl, ?_, ?_⟩ <;> decide

/-- C4 amended: the hosting relay mirrors the contact relay's send path —
gated on authentication and OFFER_HOSTING and with the requester's username
enriched into the message — but performs no rate-limiter check: a valid
POST is relayed to the admins regardless of the limiter's verdict. -/
theorem hosting_like_contact_without_rate_check (req : HostingRequest)
    (hauth : req.isAuthenticated = true) (hoffer : req.offerHosting = true)
    (hpost : req.isPost = true) (hvalid : req.formValid = true) :
    (hosting req).effects =
      mail_admins_contact req.adminsConfigured req.subjectTag
        ("Hosting request for " ++ req.project)
        (hostingBody req.name req.email req.project req.url req.repo req.mask
          req.username req.message) req.email
  ∧ (hosting req).response = Response.redirect (reverse "home")
  ∧ (∀ b, hosting { req with rateLimitAllowed := b } = hosting req)
  ∧ Effect.checkRate ∉ (hosting req).effects := by
  refine ⟨?_, ?_, ?_, ?_⟩
  · simp [hosting, hauth, hoffer, hpost, hvalid]
  · simp [hosting, hauth, hoffer, hpost, hvalid]
  · intro b
    simp [hosting, hauth, hoffer, hpost, hvalid]
  · cases hc : req.adminsConfigured <;>
      simp [hosting, hauth, hoffer, hpost, hvalid, mail_admins_contact, hc]

/-- Witness for `hosting_like_contact_without_rate_check` at a concrete
valid hosting POST. -/
theorem hosting_like_contact_without_rate_check_witness :
    hostingReqThrottled.isAuthenticated = true
  ∧ hostingReqThrottled.offerHosting = true
  ∧ hostingReqThrottled.isPost = true
  ∧ hostingReqThrottled.formValid = true
  ∧ (hosting hostingReqThrottled).effects =
      mail_admins_contact hostingReqThrottled.adminsConfigured
        hostingReqThrottled.subjectTag
        ("Hosting request for " ++ hostingReqThrottled.project)
        (hostingBody hostingReqThrottled.name hostingReqThrottled.email
          hostingReqThrottled.project hostingReqThrottled.url
          hostingReqThrottled.repo hostingReqThrottled.mask
          hostingReqThrottled.username hostingReqThrottled.message)
        hostingReqThrottled.email :=
  ⟨rfl, rfl, rfl, rfl,
    (hosting_like_contact_without_rate_check hostingReqThrottled
      rfl rfl rfl rfl).1⟩

/-- C7: the API-key reset accepts only authenticated POSTs: a GET is
answered method-not-allowed with no token mutation, while an authenticated
POST deletes any existing token, creates a fresh random token of length 40
and redirects to the profile page's API anchor. -/
theorem reset_api_key_post_only (auth tok : Bool) (hauth : auth = true) :
    (reset_api_key
        { isPost := false, isAuthenticated := auth, hasAuthToken := tok }).response
      = Response.methodNotAllowed
  ∧ (reset_api_key
        { isPost := false, isAuthenticated := auth, hasAuthToken := tok }).effects
      = []
  ∧ (reset_api_key
        { isPost := true, isAuthenticated := auth, hasAuthToken := tok }).response
      = redirect_profile "#api"
  ∧ (reset_api_key
        { isPost := true, isAuthenticated := auth, hasAuthToken := tok }).effects
      = (if tok then [Effect.deleteTokenCall] else []) ++
          [Effect.createTokenCall 40] := by
  subst hauth
  refine ⟨rfl, rfl, ?_, ?_⟩ <;> simp [reset_api_key]

/-- Witness for `reset_api_key_post_only` with an existing token present. -/
theorem reset_api_key_post_only_witness :
    (true : Bool) = true
  ∧ (reset_api_key
        { isPost := true, isAuthenticated := true, hasAuthToken := true }).effects
      = (if true then [Effect.deleteTokenCall] else []) ++
          [Effect.createTokenCall 40] :=
  ⟨rfl, (reset_api_key_post_only true true rfl).2.2.2⟩

/-- C2: a password POST by a user with a usable password whose per-session
attempt counter has reached AUTH_MAX_ATTEMPTS never verifies or commits a
password: the session is force-terminated by logout with an error redirect
to the login page, the outcome is independent of the submitted credentials,
and the flushed session reads an attempt counter of zero, so the next login
starts from zero. -/
theorem password_lockout_forces_logout (req : PasswordRequest)
    (hauth : req.isAuthenticated = true)
    (hdemo : (req.demoServer && req.username == "demo") = false)
    (husable : req.hasUsablePassword = true)
    (hpost : req.isPost = true)
    (hmax : req.session.authAttempts.getD 0 ≥ req.authMaxAttempts) :
    (password req).loggedOut = true
  ∧ (password req).response = Response.redirect (reverse "login")
  ∧ (password req).effects =
      [Effect.logoutCall, Effect.errorMsg "Too many authentication attempts!"]
  ∧ Effect.savePasswordCall ∉ (password req).effects
  ∧ (password req).session = flushedSession
  ∧ (password req).session.authAttempts.getD 0 = 0
  ∧ (∀ b c d, password { req with
        changeFormValid := b
        currentPasswordCorrect := c
        setFormValid := d } = password req) := by
  refine ⟨?_, ?_, ?_, ?_, ?_, ?_, ?_⟩ <;>
    simp [password, flushedSession, hauth, hdemo, husable, hpost, hmax]

/-- Witness for `password_lockout_forces_logout` at a concrete POST with the
counter at the ceiling. -/
theorem password_lockout_forces_logout_witness :
    passwordReqLocked.isAuthenticated = true
  ∧ (passwordReqLocked.demoServer && passwordReqLocked.username == "demo")
      = false
  ∧ passwordReqLocked.hasUsablePassword = true
  ∧ passwordReqLocked.isPost = true
  ∧ passwordReqLocked.session.authAttempts.getD 0
      ≥ passwordReqLocked.authMaxAttempts
  ∧ (password passwordReqLocked).loggedOut = true :=
  ⟨rfl, rfl, rfl, rfl, by decide,
    (password_lockout_forces_logout passwordReqLocked rfl rfl rfl rfl
      (by decide)).1⟩

/-- C3: an accepted password change (usable password, counter below the
ceiling, valid change form, current password verified, valid new-password
form) commits the new password, invalidates every other session of the
identity via the session-auth-hash update while the current session stays
authenticated, rotates the current session key, and sends the
security-event notification to the account. -/
theorem password_change_accepted_effects (req : PasswordRequest)
    (hauth : req.isAuthenticated = true)
    (hdemo : (req.demoServer && req.username == "demo") = false)
    (husable : req.hasUsablePassword = true)
    (hpost : req.isPost = true)
    (hlt : req.session.authAttempts.getD 0 < req.authMaxAttempts)
    (hcf : req.changeFormValid = true)
    (hcp : req.currentPasswordCorrect = true)
    (hsf : req.setFormValid = true) :
    (password req).effects =
      [Effect.savePasswordCall, Effect.updateSessionAuthHashCall,
       Effect.cycleKeyCall,
       Effect.successMsg "Your password has been changed.",
       Effect.notifyActivity "password"]
  ∧ (password req).loggedOut = false
  ∧ (password req).response =
      redirect_profile
        (if req.session.showSetPassword then "" else "#auth") := by
  have hnot : ¬(req.session.authAttempts.getD 0 ≥ req.authMaxAttempts) :=
    Nat.not_le.mpr hlt
  refine ⟨?_, ?_, ?_⟩ <;>
    simp [password, passwordFinish, hauth, hdemo, husable, hpost, hnot,
      hcf, hcp, hsf]

/-- Witness for `password_change_accepted_effects` at a concrete accepted
change. -/
theorem password_change_accepted_effects_witness :
    passwordReqAccepted.isAuthenticated = true
  ∧ (passwordReqAccepted.demoServer && passwordReqAccepted.username == "demo")
      = false
  ∧ passwordReqAccepted.hasUsablePassword = true
  ∧ passwordReqAccepted.isPost = true
  ∧ passwordReqAccepted.session.authAttempts.getD 0
      < passwordReqAccepted.authMaxAttempts
  ∧ passwordReqAccepted.changeFormValid = true
  ∧ passwordReqAccepted.currentPasswordCorrect = true
  ∧ passwordReqAccepted.setFormValid = true
  ∧ (password passwordReqAccepted).effects =
      [Effect.savePasswordCall, Effect.updateSessionAuthHashCall,
       Effect.cycleKeyCall,
       Effect.successMsg "Your password has been changed.",
       Effect.notifyActivity "password"] :=
  ⟨rfl, rfl, rfl, rfl, by decide, rfl, rfl, rfl,
    (password_change_accepted_effects passwordReqAccepted rfl rfl rfl rfl
      (by decide) rfl rfl rfl).1⟩

/-- C6: for an account without a usable password, the password view skips
current-password verification: no change form exists in the render context,
the response and effects are independent of the attempt counter and of any
submitted current-password data, and a valid new-password form makes the
change succeed directly. -/
theorem password_no_usable_skips_verification (req : PasswordRequest)
    (hauth : req.isAuthenticated = true)
    (hdemo : (req.demoServer && req.username == "demo") = false)
    (hnousable : req.hasUsablePassword = false)
    (hpost : req.isPost = true)
    (hsf : req.setFormValid = true) :
    (password req).changeFormPresent = false
  ∧ (password req).effects =
      [Effect.savePasswordCall, Effect.updateSessionAuthHashCall,
       Effect.cycleKeyCall,
       Effect.successMsg "Your password has been changed.",
       Effect.notifyActivity "password"]
  ∧ (password req).loggedOut = false
  ∧ (∀ a b c,
      (password { req with
        session := { req.session with authAttempts := a }
        changeFormValid := b
        currentPasswordCorrect := c }).effects
        = (password req).effects
      ∧ (password { req with
        session := { req.session with authAttempts := a }
        changeFormValid := b
        currentPasswordCorrect := c }).response
        = (password req).response) := by
  refine ⟨?_, ?_, ?_, ?_⟩ <;>
    simp [password, passwordFinish, hauth, hdemo, hnousable, hpost, hsf]

/-- Witness for `password_no_usable_skips_verification` at a concrete POST
by an account without a usable password. -/
theorem password_no_usable_skips_verification_witness :
    passwordReqNoUsable.isAuthenticated = true
  ∧ (passwordReqNoUsable.demoServer && passwordReqNoUsable.username == "demo")
      = false
  ∧ passwordReqNoUsable.hasUsablePassword = false
  ∧ passwordReqNoUsable.isPost = true
  ∧ passwordReqNoUsable.setFormValid = true
  ∧ (password passwordReqNoUsable).changeFormPresent = false :=
  ⟨rfl, rfl, rfl, rfl, rfl,
    (password_no_usable_skips_verification passwordReqNoUsable
      rfl rfl rfl rfl rfl).1⟩

/-- C8: a password POST with a valid change form whose current password
fails verification increments the per-session attempt counter by exactly
one, surfaces an invalid-password error, rotates the CSRF token, and
commits no password change. -/
theorem password_wrong_current_increments (req : PasswordRequest)
    (hauth : req.isAuthenticated = true)
    (hdemo : (req.demoServer && req.username == "demo") = false)
    (husable : req.hasUsablePassword = true)
    (hpost : req.isPost = true)
    (hlt : req.session.authAttempts.getD 0 < req.authMaxAttempts)
    (hcf : req.changeFormValid = true)
    (hwrong : req.currentPasswordCorrect = false) :
    (password req).session.authAttempts
      = some (req.session.authAttempts.getD 0 + 1)
  ∧ (password req).effects =
      [Effect.errorMsg "You have entered an invalid password.",
       Effect.rotateTokenCall]
  ∧ (password req).response = Response.render "accounts/password.html"
  ∧ Effect.savePasswordCall ∉ (password req).effects := by
  have hnot : ¬(req.session.authAttempts.getD 0 ≥ req.authMaxAttempts) :=
    Nat.not_le.mpr hlt
  refine ⟨?_, ?_, ?_, ?_⟩ <;>
    simp [password, passwordFinish, hauth, hdemo, husable, hpost, hnot,
      hcf, hwrong]

/-- Witness for `password_wrong_current_increments` at a concrete failed
verification. -/
theorem password_wrong_current_increments_witness :
    passwordReqWrong.isAuthenticated = true
  ∧ (passwordReqWrong.demoServer && passwordReqWrong.username == "demo")
      = false
  ∧ passwordReqWrong.hasUsablePassword = true
  ∧ passwordReqWrong.isPost = true
  ∧ passwordReqWrong.session.authAttempts.getD 0
      < passwordReqWrong.authMaxAttempts
  ∧ passwordReqWrong.changeFormValid = true
  ∧ passwordReqWrong.currentPasswordCorrect = false
  ∧ (password passwordReqWrong).session.authAttempts
      = some (passwordReqWrong.session.authAttempts.getD 0 + 1) :=
  ⟨rfl, rfl, rfl, rfl, by decide, rfl, rfl,
    (password_wrong_current_increments passwordReqWrong rfl rfl rfl rfl
      (by decide) rfl rfl).1⟩

/-- C10: a password POST whose current password verifies resets the
per-session attempt counter to zero even when the new-password form is
invalid and no change is committed: the reset is tied to successful
verification, not to a completed change. -/
theorem password_verified_resets_counter (req : PasswordRequest)
    (hauth : req.isAuthenticated = true)
    (hdemo : (req.demoServer && req.username == "demo") = false)
    (husable : req.hasUsablePassword = true)
    (hpost : req.isPost = true)
    (hlt : req.session.authAttempts.getD 0 < req.authMaxAttempts)
    (hcf : req.changeFormValid = true)
    (hcp : req.currentPasswordCorrect = true)
    (hsfinv : req.setFormValid = false) :
    (password req).session.authAttempts = some 0
  ∧ (password req).effects = []
  ∧ Effect.savePasswordCall ∉ (password req).effects
  ∧ (password req).response = Response.render "accounts/password.html" := by
  have hnot : ¬(req.session.authAttempts.getD 0 ≥ req.authMaxAttempts) :=
    Nat.not_le.mpr hlt
  refine ⟨?_, ?_, ?_, ?_⟩ <;>
    simp [password, passwordFinish, hauth, hdemo, husable, hpost, hnot,
      hcf, hcp, hsfinv]

/-- Witness for `password_verified_resets_counter` at a concrete verified
POST with an invalid new-password form. -/
theorem password_verified_resets_counter_witness :
    passwordReqVerifiedOnly.isAuthenticated = true
  ∧ (passwordReqVerifiedOnly.demoServer &&
      passwordReqVerifiedOnly.username == "demo") = false
  ∧ passwordReqVerifiedOnly.hasUsablePassword = true
  ∧ passwordReqVerifiedOnly.isPost = true
  ∧ passwordReqVerifiedOnly.session.authAttempts.getD 0
      < passwordReqVerifiedOnly.authMaxAttempts
  ∧ passwordReqVerifiedOnly.changeFormValid = true
  ∧ passwordReqVerifiedOnly.currentPasswordCorrect = true
  ∧ passwordReqVerifiedOnly.setFormValid = false
  ∧ (password passwordReqVerifiedOnly).session.authAttempts = some 0 :=
  ⟨rfl, rfl, rfl, rfl, by decide, rfl, rfl, rfl,
    (password_verified_resets_counter passwordReqVerifiedOnly rfl rfl rfl rfl
      (by decide) rfl rfl rfl).1⟩

/-- C1: for a profile POST not hit by the demo hard-block and whose profile
language is already set (the invariant after first load), persistence
happens exactly when every one of the six sub-forms validates: when all are
valid each form is saved, `set_lang` applied, and the redirect sets the
language cookie and activates the new locale; when any is invalid no
persistence call at all is made and the bound forms are re-rendered with
their field errors. -/
theorem user_profile_persistence_iff_valid (req : ProfileRequest)
    (hauth : req.isAuthenticated = true)
    (hpost : req.isPost = true)
    (hdemo : (req.demoServer && req.username == "demo") = false)
    (hlang : req.profileLanguage ≠ "") :
    ((∃ i, Effect.saveForm i ∈ (user_profile req).effects)
      ↔ allFormsValid req = true)
  ∧ (allFormsValid req = true →
      (user_profile req).effects =
        [Effect.saveForm 0, Effect.saveForm 1, Effect.saveForm 2,
         Effect.saveForm 3, Effect.saveForm 4, Effect.saveForm 5,
         Effect.setLangCall,
         Effect.successMsg "Your profile has been updated."]
      ∧ (user_profile req).cookie =
          some (req.languageCookieName, req.submittedLanguage)
      ∧ (user_profile req).activatedLocale = some req.submittedLanguage
      ∧ (user_profile req).response = redirect_profile req.activetab)
  ∧ (allFormsValid req = false →
      (user_profile req).effects = []
      ∧ (user_profile req).boundFormsRendered = true) := by
  cases hv : allFormsValid req with
  | false =>
    refine ⟨?_, ?_, ?_⟩
    · simp [user_profile, hauth, hpost, hdemo, hlang, hv]
    · intro h
      exact absurd h (by decide)
    · intro _
      constructor <;> simp [user_profile, hauth, hpost, hdemo, hlang, hv]
  | true =>
    refine ⟨?_, ?_, ?_⟩
    · refine ⟨fun _ => rfl, fun _ => ⟨0, ?_⟩⟩
      simp [user_profile, hauth, hpost, hdemo, hlang, hv]
    · intro _
      refine ⟨?_, ?_, ?_, ?_⟩ <;>
        simp [user_profile, hauth, hpost, hdemo, hlang, hv]
    · intro h
      exact absurd h (by decide)

/-- Witness for `user_profile_persistence_iff_valid` at a concrete POST
with every sub-form valid. -/
theorem user_profile_persistence_iff_valid_witness :
    profileReqAllValid.isAuthenticated = true
  ∧ profileReqAllValid.isPost = true
  ∧ (profileReqAllValid.demoServer && profileReqAllValid.username == "demo")
      = false
  ∧ profileReqAllValid.profileLanguage ≠ ""
  ∧ ((∃ i, Effect.saveForm i ∈ (user_profile profileReqAllValid).effects)
      ↔ allFormsValid profileReqAllValid = true) :=
  ⟨rfl, rfl, rfl, by decide,
    (user_profile_persistence_iff_valid profileReqAllValid rfl rfl rfl
      (by decide)).1⟩

/-- C9: a successful profile load leaves the profile with a non-empty
language: an unset language is defaulted from the request locale and saved,
while an already-set language is kept untouched with no save issued. -/
theorem user_profile_load_defaults_language (req : ProfileRequest)
    (hauth : req.isAuthenticated = true)
    (hget : req.isPost = false)
    (hlocale : req.requestLocale ≠ "") :
    (user_profile req).language ≠ ""
  ∧ (user_profile req).language =
      (if req.profileLanguage = "" then req.requestLocale
       else req.profileLanguage)
  ∧ (req.profileLanguage = "" →
      (user_profile req).effects = [Effect.saveDefaultLanguage])
  ∧ (req.profileLanguage ≠ "" →
      (user_profile req).effects = []
      ∧ (user_profile req).language = req.profileLanguage) := by
  by_cases hp : req.profileLanguage = ""
  · refine ⟨?_, ?_, fun _ => ?_, fun h => absurd hp h⟩ <;>
      simp [user_profile, hauth, hget, hp, hlocale]
  · refine ⟨?_, ?_, fun h => absurd h hp, fun _ => ⟨?_, ?_⟩⟩ <;>
      simp [user_profile, hauth, hget, hp]

/-- Witness for `user_profile_load_defaults_language` at a concrete GET on
a profile whose language is unset. -/
theorem user_profile_load_defaults_language_witness :
    profileReqFresh.isAuthenticated = true
  ∧ profileReqFresh.isPost = false
  ∧ profileReqFresh.requestLocale ≠ ""
  ∧ (user_profile profileReqFresh).language ≠ "" :=
  ⟨rfl, rfl, by decide,
    (user_profile_load_defaults_language profileReqFresh rfl rfl
      (by decide)).1⟩
